import Mathlib

/-!
Verification development for the fpl-etl repository.

The repository extracts JSON data from a sports-statistics API, normalizes
it into columnar (polars) tables, and loads it into Oracle via a pooled
connection.  This file gives a shallow embedding of the parts of the code
relevant to the frozen claims:

* `src/etl/pipeline.py`   — `Pipeline.rebuild` / `Pipeline.reload` table naming
* `src/etl/utils.py`      — `clean_df` (drop nested columns, cast booleans)
* `src/etl/extractors.py` — `APIExtractor.parse` and `FPL.generate`
* `src/etl/loaders.py`    — `OracleDBLoader.generate_oracle_ddl` type mapping,
  and the error-handling shape of `truncate_table`, `drop_table`,
  `count_rows`, `create_table` and `close`.
-/

/- ## Strings: Python `str.upper` -/

/-- Embedding of Python `str.upper` for the ASCII identifiers used by this
repository: upper-case every character. -/
def str_upper (s : String) : String := ⟨s.data.map Char.toUpper⟩

theorem str_upper_append (a b : String) :
    str_upper (a ++ b) = str_upper a ++ str_upper b := by
  cases a with
  | mk da =>
    cases b with
    | mk db =>
      show String.mk ((da ++ db).map Char.toUpper)
          = String.mk (da.map Char.toUpper ++ db.map Char.toUpper)
      rw [List.map_append]

/- ## Table naming (`src/etl/pipeline.py`)

`Pipeline.rebuild` / `Pipeline.reload` both derive the table name with the
f-string `f"{table_prefix}_{k.upper()}"`: the logical name `k` is
upper-cased, the prefix component is used verbatim. -/

/-- Embedding of the table-name derivation in `Pipeline.rebuild` and
`Pipeline.reload`: `table_prefix + "_" + k.upper()`. -/
def pipeline_table_name (pfx k : String) : String := pfx ++ "_" ++ str_upper k

/- ## Oracle type mapping (`OracleDBLoader.generate_oracle_ddl`) -/

/-- Arrow field types distinguished by `_field_to_oracle_type` in
`generate_oracle_ddl`.  A pyarrow decimal type carries precision and scale;
the source wraps the attribute access in `try/except`, so the embedding
carries them as an `Option` (`none` models the unavailable case that the
`except` branch catches). -/
inductive ArrowType where
  | decimal (ps : Option (Int × Int))
  | integer
  | float64
  | float32
  | boolean
  | binary
  | largeBinary
  | timestampTz
  | timestampNoTz
  | largeString
  | strType
  | listType
  | structType
  | other
  deriving DecidableEq, Repr

/-- Longest length of the non-null sampled strings:
`max((len(x) for x in column.to_pylist() if x is not None), default=0)`. -/
def max_sample_len (vals : List (Option String)) : Nat :=
  ((vals.filterMap id).map String.length).foldr max 0

/-- Embedding of the nested helper `_field_to_oracle_type` of
`OracleDBLoader.generate_oracle_ddl`.  `column` is the sampled column
values passed for string-length inference (`None` for the other branches,
where the source never reads it); sampled values are `Option String`
because `to_pylist` yields `None` for nulls. -/
def field_to_oracle_type (t : ArrowType) (column : Option (List (Option String))) : String :=
  match t with
  | .decimal ps =>
      match ps with
      | some (p, s) => "NUMBER(" ++ toString p ++ "," ++ toString s ++ ")"
      | none => "NUMBER"
  | .integer => "NUMBER"
  | .float64 => "BINARY_DOUBLE"
  | .float32 => "BINARY_FLOAT"
  | .boolean => "NUMBER(1)"
  | .binary => "BLOB"
  | .largeBinary => "BLOB"
  | .timestampTz => "TIMESTAMP WITH TIME ZONE"
  | .timestampNoTz => "TIMESTAMP"
  | .largeString => "CLOB"
  | .strType =>
      let max_len : Nat :=
        match column with
        | none => 0
        | some vals => max_sample_len vals
      let length := max 255 (max_len * 3)
      if length ≤ 4000 then "VARCHAR2(" ++ toString (min length 4000) ++ ")"
      else "CLOB"
  | .listType => "BLOB"
  | .structType => "BLOB"
  | .other => "CLOB"

/-- One field of a pyarrow table handed to `generate_oracle_ddl`: its name,
its arrow type, and the sampled values (`table.column(i)`) used for string
length inference. -/
structure OraField where
  name : String
  type : ArrowType
  column : Option (List (Option String))
  deriving Repr

/-- Embedding of `OracleDBLoader.generate_oracle_ddl`: map each field to an
Oracle type, upper-case and quote the column names, upper-case and quote
the table name. -/
def generate_oracle_ddl (table : List OraField) (table_name : String) : String :=
  let column_defs := table.map (fun f =>
    "    \"" ++ str_upper f.name ++ "\" " ++ field_to_oracle_type f.type f.column)
  "CREATE TABLE \"" ++ str_upper table_name ++ "\" (\n"
    ++ String.intercalate ",\n" column_defs ++ "\n)"

/- ## Polars tables

A shallow embedding of the polars `DataFrame` values manipulated by
`clean_df` and `APIExtractor.parse`: an ordered list of named, typed
columns.  The height of a frame is the length of its first column
(polars keeps all columns the same length). -/

/-- Polars dtypes distinguished by the repository code. -/
inductive PDType where
  | null
  | boolean
  | int8
  | int64
  | float64
  | strType
  | listType
  | structType
  deriving DecidableEq, Repr

/-- Cell values of a polars column.  Floats are modelled by rationals
(they are only ever passed through as literals here); nested list and
struct cells are opaque markers, since the code never looks inside them
(it drops such columns). -/
inductive PVal where
  | vnull
  | vbool (b : Bool)
  | vint (n : Int)
  | vfloat (q : ℚ)
  | vstr (s : String)
  | vlist
  | vstruct
  deriving DecidableEq, Repr

/-- One polars column: name, dtype, cell values. -/
structure PCol where
  name : String
  dtype : PDType
  values : List PVal
  deriving DecidableEq, Repr

/-- A polars DataFrame: its columns, in order. -/
abbrev PFrame := List PCol

/-- Height of a frame: the common length of its columns (0 when the frame
has no columns, matching `pl.DataFrame([])`). -/
def df_height : PFrame → Nat
  | [] => 0
  | c :: _ => c.values.length

/-- Dtype of a cell value. -/
def pval_dtype : PVal → PDType
  | .vnull => .null
  | .vbool _ => .boolean
  | .vint _ => .int64
  | .vfloat _ => .float64
  | .vstr _ => .strType
  | .vlist => .listType
  | .vstruct => .structType

/-- Polars schema inference for a column built from python values: the
first non-null value decides the dtype; an all-null column gets the Null
dtype. -/
def infer_dtype (vals : List PVal) : PDType :=
  match vals.find? (fun v => v ≠ .vnull) with
  | some v => pval_dtype v
  | none => .null

/-- Values of the first column with the given name, if any. -/
def col_values (df : PFrame) (nm : String) : Option (List PVal) :=
  (df.find? (fun c => c.name = nm)).map PCol.values

/-- Replace the (unique) column with this name in place, or append the new
column at the end — the semantics of polars `with_columns` with an
`alias`. -/
def replace_or_append (df : PFrame) (c : PCol) : PFrame :=
  if df.any (fun x => x.name = c.name) then
    df.map (fun x => if x.name = c.name then c else x)
  else
    df ++ [c]

/-- Semantics of `df.with_columns(pl.lit(v).alias(nm))`: the literal is
broadcast to the frame's height and replaces/appends the column `nm`.  On
a frame with zero columns the unit-length literal is not broadcast (there
is no height to match), so the result is a one-row frame — the observable
polars behaviour of `pl.DataFrame([]).with_columns(pl.lit(v))`, the same
rule that makes `pl.select(pl.lit(v))` a one-row frame. -/
def with_col_lit (df : PFrame) (nm : String) (v : PVal) (dt : PDType) : PFrame :=
  if df.isEmpty then [⟨nm, dt, [v]⟩]
  else replace_or_append df ⟨nm, dt, List.replicate (df_height df) v⟩

/- ## `clean_df` (`src/etl/utils.py`) -/

/-- Embedding of the polars cast of a Boolean column to Int8:
`True → 1`, `False → 0`, null preserved. -/
def bool_to_int8 : PVal → PVal
  | .vbool true => .vint 1
  | .vbool false => .vint 0
  | v => v

/-- Embedding of `clean_df`: drop every column whose dtype is a nested
list or struct (the source collects their names into `list_cols` and
drops them; with polars columns uniquely named this is the dtype filter
below), then — unless there are no Boolean columns, in which case the
frame is returned as is — cast each Boolean column to Int8 in place. -/
def clean_df (df : PFrame) : PFrame :=
  let df1 := df.filter (fun c => ¬(c.dtype = .listType ∨ c.dtype = .structType))
  let bool_cols := df1.filter (fun c => c.dtype = .boolean)
  if bool_cols.isEmpty then df1
  else df1.map (fun c =>
    if c.dtype = .boolean then ⟨c.name, .int8, c.values.map bool_to_int8⟩ else c)

/- ## `APIExtractor.parse` (`src/etl/extractors.py`) -/

/-- The scalar fields of the stamp dict built by `APIExtractor.stamp` and
`APIExtractor.get`: a fresh request id, the ISO-8601 request time, the
HTTP status code, and the elapsed milliseconds (a float, modelled by a
rational). -/
structure Stamp where
  request_id : String
  request_time : String
  response_code : Int
  response_elapsed_ms : ℚ
  deriving DecidableEq, Repr

/-- One record (JSON object) of a payload array, as a name/value list. -/
abbrev Row := List (String × PVal)

/-- The JSON value stored under a sub-key of a response body — for the
shapes the FPL API returns (and `parse` consumes): either JSON null or an
array of flat records. -/
inductive JBody where
  | jnull
  | records (rows : List Row)
  deriving Repr

/-- Python `stamp.get(key) or []`: a missing key (`None` from `dict.get`),
an explicit null, and an empty array are all falsy and become `[]`. -/
def py_or_empty : Option JBody → List Row
  | none => []
  | some .jnull => []
  | some (.records rows) => rows

/-- Lookup in a JSON object (`dict.get`). -/
def assoc_get (nm : String) (obj : List (String × JBody)) : Option JBody :=
  (obj.find? (fun p => p.1 = nm)).map Prod.snd

/-- Row-local lookup of a field, nulls for absent fields (how polars fills
missing dict keys). -/
def row_get (nm : String) (r : Row) : PVal :=
  ((r.find? (fun p => p.1 = nm)).map Prod.snd).getD .vnull

/-- First occurrences of names, in order of first appearance. -/
def dedup_first : List String → List String
  | [] => []
  | x :: xs => x :: (dedup_first xs).filter (fun y => y ≠ x)

/-- Semantics of `pl.DataFrame(rows)` for a list of records: the columns
are the record keys in order of first appearance, each column holding one
cell per record (null where a record lacks the key), with polars schema
inference for the dtype.  `pl.DataFrame([])` is the frame with no
columns. -/
def pl_DataFrame_records (rows : List Row) : PFrame :=
  (dedup_first (rows.flatMap (fun r => r.map Prod.fst))).map (fun nm =>
    ⟨nm, infer_dtype (rows.map (row_get nm)), rows.map (row_get nm)⟩)

/-- The empty schema skeleton `parse` builds for a failed response:
`pl.DataFrame` of four empty lists (polars gives empty python lists the
Null dtype). -/
def skeleton_df : PFrame :=
  [⟨"request_id", .null, []⟩,
   ⟨"request_time", .null, []⟩,
   ⟨"response_code", .null, []⟩,
   ⟨"response_elapsed_ms", .null, []⟩]

/-- The four chained `with_columns(pl.lit(...).alias(...))` calls at the
end of `parse`, stamping the metric fields onto every row. -/
def stamp_df (st : Stamp) (df : PFrame) : PFrame :=
  with_col_lit
    (with_col_lit
      (with_col_lit
        (with_col_lit df "request_id" (.vstr st.request_id) .strType)
        "request_time" (.vstr st.request_time) .strType)
      "response_code" (.vint st.response_code) .int64)
    "response_elapsed_ms" (.vfloat st.response_elapsed_ms) .float64

/-- Embedding of `APIExtractor.parse`.  `body` is the parsed JSON of the
response (`stamp["response"].json()`), an object mapping sub-keys to
values.  When the response code is 200 and a key was given, the frame is
built from `stamp.get(key) or []`; otherwise `parse` builds the empty
skeleton with the four metric columns.  The frame is then cleaned and the
four stamp fields attached as literal columns. -/
def parse (st : Stamp) (key : Option String) (body : List (String × JBody)) : PFrame :=
  let df : PFrame :=
    match key with
    | some k =>
        if st.response_code = 200 then pl_DataFrame_records (py_or_empty (assoc_get k body))
        else skeleton_df
    | none => skeleton_df
  stamp_df st (clean_df df)

/- ## `FPL.generate` (`src/etl/extractors.py`) -/

/-- The endpoint configuration built in `FPL.__init__` (the commented-out
sub-keys excluded). -/
def fpl_endpoints : List (String × List String) :=
  [("bootstrap-static", ["events", "phases", "teams", "elements"]),
   ("fixtures", [])]

/-- The logical names a configuration makes `generate` yield: the endpoint
itself when its sub-key list is empty, otherwise its sub-keys in order. -/
def generator_names (endpoints : List (String × List String)) : List String :=
  endpoints.flatMap (fun p => if p.2.isEmpty then [p.1] else p.2)

/-- The `for k in keys` loop body of `FPL.generate`: one `self.get` call
per sub-key (the n-th HTTP call of the run returns `responses n`), each
yielding `(k, parse(get(url), key=k))`.  Returns the yielded items and the
next HTTP-call index. -/
def yield_keys (responses : Nat → Stamp × List (String × JBody)) :
    List String → Nat → List (String × PFrame) × Nat
  | [], n => ([], n)
  | k :: ks, n =>
      let r := responses n
      let rest := yield_keys responses ks (n + 1)
      ((k, parse r.1 (some k) r.2) :: rest.1, rest.2)

/-- Embedding of `FPL.generate`: for each `(endpoint, keys)` pair in
configured order, `if len(keys) == 0` fetch once and yield the endpoint
name with the whole-body parse, then for each sub-key fetch once and
yield that key's parse.  The HTTP calls are numbered in issue order
(`responses n` is what the n-th `self.get` returns); the second component
is the next call index, so the total number of HTTP fetches of a run is
`(generate responses endpoints 0).2`. -/
def generate (responses : Nat → Stamp × List (String × JBody)) :
    List (String × List String) → Nat → List (String × PFrame) × Nat
  | [], n => ([], n)
  | (e, keys) :: rest, n =>
      let whole : List (String × PFrame) × Nat :=
        if keys.isEmpty then
          let r := responses n
          ([(e, parse r.1 none r.2)], n + 1)
        else ([], n)
      let sub := yield_keys responses keys whole.2
      let tail := generate responses rest sub.2
      (whole.1 ++ sub.1 ++ tail.1, tail.2)

/- ## Database Loader error handling (`src/etl/loaders.py`)

The Oracle driver is the external collaborator: each operation is embedded
as a function of the outcome the driver produces for its SQL execution
(`Except` with the `DatabaseError` message), returning the log lines the
operation emits together with the outcome the caller observes. -/

/-- Outcome of a loader operation: the log lines it wrote, and the result
the caller sees — `Except.error` models an exception propagating out of
the method. -/
structure DbOp (α : Type) where
  log : List String
  result : Except String α
  deriving Repr

/-- Embedding of `OracleDBLoader.truncate_table`: log the attempt; on a
driver `DatabaseError`, log it and re-raise it unchanged (`raise`). -/
def truncate_table (table_name : String) (driver : Except String Unit) : DbOp Unit :=
  match driver with
  | .ok _ =>
      ⟨["Truncating table " ++ table_name,
        "Table " ++ table_name ++ " truncated successfully"], .ok ()⟩
  | .error e =>
      ⟨["Truncating table " ++ table_name, "Truncation failed: " ++ e], .error e⟩

/-- Embedding of `OracleDBLoader.drop_table`: log, and on a driver
`DatabaseError` log it and re-raise it unchanged. -/
def drop_table (table_name : String) (driver : Except String Unit) : DbOp Unit :=
  match driver with
  | .ok _ =>
      ⟨["Dropping table " ++ table_name,
        "Table " ++ table_name ++ " dropped successfully"], .ok ()⟩
  | .error e =>
      ⟨["Dropping table " ++ table_name, "Dropping table failed: " ++ e], .error e⟩

/-- Embedding of `OracleDBLoader.count_rows`: on success return the count
the driver fetched; on a driver `DatabaseError` log it and re-raise it
unchanged (no default count is returned to the caller). -/
def count_rows (table_name : String) (driver : Except String Int) : DbOp Int :=
  match driver with
  | .ok n =>
      ⟨["Getting row count for table " ++ table_name,
        "Table " ++ table_name ++ " has " ++ toString n ++ " rows"], .ok n⟩
  | .error e =>
      ⟨["Getting row count for table " ++ table_name,
        "Row count retrieval failed: " ++ e], .error e⟩

/-- Embedding of `OracleDBLoader.create_table`: generate the DDL with
`generate_oracle_ddl` (outside the `try`), then execute it; a driver
`DatabaseError` is logged and re-raised unchanged. -/
def create_table (table_name : String) (table : List OraField)
    (driver : Except String Unit) : DbOp Unit :=
  let ddl := generate_oracle_ddl table table_name
  match driver with
  | .ok _ =>
      ⟨["Generated DDL: " ++ ddl,
        "Table " ++ table_name ++ " created successfully"], .ok ()⟩
  | .error e =>
      ⟨["Generated DDL: " ++ ddl, "Creating table failed: " ++ e], .error e⟩

/-- Embedding of `OracleDBLoader.close`: a driver `DatabaseError` while
closing the pool is caught and logged only — the method returns normally
in every case. -/
def close_loader (driver : Except String Unit) : DbOp Unit :=
  match driver with
  | .ok _ =>
      ⟨["Closing OracleDBLoader and its connection pool",
        "Connection pool closed successfully"], .ok ()⟩
  | .error e =>
      ⟨["Closing OracleDBLoader and its connection pool",
        "Failed to close connection pool: " ++ e], .ok ()⟩

/- ## Frame lemmas -/

theorem with_col_lit_ne_nil (df : PFrame) (nm : String) (v : PVal) (dt : PDType) :
    with_col_lit df nm v dt ≠ [] := by
  cases df with
  | nil => simp [with_col_lit]
  | cons h t =>
    unfold with_col_lit replace_or_append
    simp only [List.isEmpty_cons, Bool.false_eq_true, if_false]
    split <;> simp

theorem df_height_with_col_lit (df : PFrame) (nm : String) (v : PVal) (dt : PDType)
    (hdf : df ≠ []) : df_height (with_col_lit df nm v dt) = df_height df := by
  cases df with
  | nil => exact absurd rfl hdf
  | cons h t =>
    unfold with_col_lit replace_or_append
    simp only [List.isEmpty_cons, Bool.false_eq_true, if_false]
    split
    · by_cases hh : h.name = nm <;> simp [df_height, hh]
    · simp [df_height]

theorem find?_map_replace (t : PFrame) (nm : String) (c : PCol) (hc : c.name = nm)
    (hany : t.any (fun x => x.name = nm) = true) :
    (t.map (fun x => if x.name = nm then c else x)).find? (fun x => x.name = nm)
      = some c := by
  induction t with
  | nil => simp at hany
  | cons h tl ih =>
    by_cases hh : h.name = nm
    · simp [List.find?, hh, hc]
    · simp only [List.any_cons, hh, decide_eq_true_eq, Bool.false_or] at hany
      simp [List.find?, hh, ih hany]

theorem find?_map_replace_ne (t : PFrame) (nm : String) (c : PCol) (nm2 : String)
    (hne : ¬ nm = nm2) (hc : c.name = nm) :
    (t.map (fun x => if x.name = nm then c else x)).find? (fun x => x.name = nm2)
      = t.find? (fun x => x.name = nm2) := by
  have hcne : ¬ c.name = nm2 := by rw [hc]; exact hne
  have hne2 : ¬ nm2 = nm := fun hq => hne hq.symm
  induction t with
  | nil => simp
  | cons h tl ih =>
    by_cases hh : h.name = nm
    · have h2 : ¬ h.name = nm2 := by rw [hh]; exact hne
      simp [List.find?, hh, hcne, h2, hne, ih]
    · by_cases h2 : h.name = nm2 <;> simp [List.find?, hh, h2, hne2, ih]

theorem col_values_with_col_lit_self (df : PFrame) (nm : String) (v : PVal) (dt : PDType) :
    col_values (with_col_lit df nm v dt) nm
      = some (List.replicate (df_height (with_col_lit df nm v dt)) v) := by
  cases df with
  | nil => simp [with_col_lit, col_values, List.find?, df_height]
  | cons h t =>
    rw [df_height_with_col_lit _ _ _ _ (by simp)]
    unfold with_col_lit replace_or_append
    simp only [List.isEmpty_cons, Bool.false_eq_true, if_false]
    split
    · rename_i hany
      unfold col_values
      rw [find?_map_replace _ nm ⟨nm, dt, List.replicate (df_height (h :: t)) v⟩ rfl hany]
      rfl
    · rename_i hany
      unfold col_values
      have hnone : (h :: t).find? (fun x => x.name = nm) = none := by
        refine List.find?_eq_none.mpr ?_
        intro x hx
        simp only [List.any_eq_true, not_exists, not_and] at hany
        simpa using hany x hx
      rw [List.find?_append, hnone]
      simp [List.find?]

theorem col_values_with_col_lit_ne (df : PFrame) (nm : String) (v : PVal) (dt : PDType)
    (nm2 : String) (hne : ¬ nm = nm2) :
    col_values (with_col_lit df nm v dt) nm2 = col_values df nm2 := by
  cases df with
  | nil => simp [with_col_lit, col_values, List.find?, hne]
  | cons h t =>
    unfold with_col_lit replace_or_append
    simp only [List.isEmpty_cons, Bool.false_eq_true, if_false]
    split
    · unfold col_values
      rw [find?_map_replace_ne _ nm ⟨nm, dt, List.replicate (df_height (h :: t)) v⟩ nm2 hne rfl]
    · unfold col_values
      rw [List.find?_append]
      have hnil : List.find? (fun x => x.name = nm2)
          [(⟨nm, dt, List.replicate (df_height (h :: t)) v⟩ : PCol)] = none := by
        simp [List.find?, hne]
      rw [hnil]
      cases List.find? (fun c => c.name = nm2) (h :: t) <;> rfl

/- ## `clean_df` lemmas -/

theorem clean_df_dtypes (df : PFrame) :
    ∀ c ∈ clean_df df,
      ¬ c.dtype = .listType ∧ ¬ c.dtype = .structType ∧ ¬ c.dtype = .boolean := by
  intro c hc
  unfold clean_df at hc
  by_cases hb :
      ((df.filter (fun c => ¬(c.dtype = .listType ∨ c.dtype = .structType))).filter
        (fun c => c.dtype = .boolean)).isEmpty = true
  · rw [if_pos hb] at hc
    have hmem := List.of_mem_filter hc
    have hnb : ∀ x ∈ df.filter (fun c => ¬(c.dtype = .listType ∨ c.dtype = .structType)),
        ¬ x.dtype = .boolean := by
      intro x hx
      rw [List.isEmpty_iff] at hb
      intro hxb
      have : x ∈ ((df.filter (fun c => ¬(c.dtype = .listType ∨ c.dtype = .structType))).filter
          (fun c => c.dtype = .boolean)) := List.mem_filter.mpr ⟨hx, by simp [hxb]⟩
      rw [hb] at this
      exact absurd this (List.not_mem_nil _)
    have hmem2 : ¬ c.dtype = .listType ∧ ¬ c.dtype = .structType := by
      simpa [not_or] using hmem
    exact ⟨hmem2.1, hmem2.2, hnb c hc⟩
  · rw [if_neg hb] at hc
    obtain ⟨x, hx, hxc⟩ := List.mem_map.mp hc
    have hmem := List.of_mem_filter hx
    have hmem2 : ¬ x.dtype = .listType ∧ ¬ x.dtype = .structType := by
      simpa [not_or] using hmem
    by_cases hxb : x.dtype = .boolean
    · rw [if_pos hxb] at hxc
      subst hxc
      simp
    · rw [if_neg hxb] at hxc
      subst hxc
      exact ⟨hmem2.1, hmem2.2, hxb⟩

theorem clean_df_idempotent (df : PFrame) : clean_df (clean_df df) = clean_df df := by
  have h := clean_df_dtypes df
  show clean_df (clean_df df) = clean_df df
  conv_lhs => rw [clean_df]
  have hfilter : (clean_df df).filter
      (fun c => ¬(c.dtype = .listType ∨ c.dtype = .structType)) = clean_df df := by
    refine List.filter_eq_self.mpr ?_
    intro c hc
    have hd := h c hc
    simp [hd.1, hd.2.1]
  rw [hfilter]
  have hbool : (clean_df df).filter (fun c => c.dtype = .boolean) = [] := by
    refine List.filter_eq_nil_iff.mpr ?_
    intro c hc
    have hd := h c hc
    simp [hd.2.2]
  rw [hbool]
  simp

/- ## `stamp_df` lemmas -/

theorem stamp_df_request_id (st : Stamp) (df : PFrame) :
    col_values (stamp_df st df) "request_id"
      = some (List.replicate (df_height (stamp_df st df)) (.vstr st.request_id)) := by
  unfold stamp_df
  rw [col_values_with_col_lit_ne _ _ _ _ _ (by decide),
    col_values_with_col_lit_ne _ _ _ _ _ (by decide),
    col_values_with_col_lit_ne _ _ _ _ _ (by decide),
    col_values_with_col_lit_self,
    df_height_with_col_lit _ _ _ _ (with_col_lit_ne_nil _ _ _ _),
    df_height_with_col_lit _ _ _ _ (with_col_lit_ne_nil _ _ _ _),
    df_height_with_col_lit _ _ _ _ (with_col_lit_ne_nil _ _ _ _)]

theorem stamp_df_request_time (st : Stamp) (df : PFrame) :
    col_values (stamp_df st df) "request_time"
      = some (List.replicate (df_height (stamp_df st df)) (.vstr st.request_time)) := by
  unfold stamp_df
  rw [col_values_with_col_lit_ne _ _ _ _ _ (by decide),
    col_values_with_col_lit_ne _ _ _ _ _ (by decide),
    col_values_with_col_lit_self,
    df_height_with_col_lit _ _ _ _ (with_col_lit_ne_nil _ _ _ _),
    df_height_with_col_lit _ _ _ _ (with_col_lit_ne_nil _ _ _ _),
    df_height_with_col_lit _ _ _ _ (with_col_lit_ne_nil _ _ _ _),
    df_height_with_col_lit _ _ _ _ (with_col_lit_ne_nil _ _ _ _)]

theorem stamp_df_response_code (st : Stamp) (df : PFrame) :
    col_values (stamp_df st df) "response_code"
      = some (List.replicate (df_height (stamp_df st df)) (.vint st.response_code)) := by
  unfold stamp_df
  rw [col_values_with_col_lit_ne _ _ _ _ _ (by decide),
    col_values_with_col_lit_self,
    df_height_with_col_lit _ _ _ _ (with_col_lit_ne_nil _ _ _ _),
    df_height_with_col_lit _ _ _ _ (with_col_lit_ne_nil _ _ _ _),
    df_height_with_col_lit _ _ _ _ (with_col_lit_ne_nil _ _ _ _),
    df_height_with_col_lit _ _ _ _ (with_col_lit_ne_nil _ _ _ _),
    df_height_with_col_lit _ _ _ _ (with_col_lit_ne_nil _ _ _ _)]

theorem stamp_df_response_elapsed (st : Stamp) (df : PFrame) :
    col_values (stamp_df st df) "response_elapsed_ms"
      = some (List.replicate (df_height (stamp_df st df)) (.vfloat st.response_elapsed_ms)) := by
  unfold stamp_df
  rw [col_values_with_col_lit_self]

/- ## `generate` lemmas -/

theorem yield_keys_fst (responses : Nat → Stamp × List (String × JBody))
    (ks : List String) (n : Nat) :
    (yield_keys responses ks n).1.map Prod.fst = ks := by
  induction ks generalizing n with
  | nil => rfl
  | cons k ks ih => simp [yield_keys, ih]

theorem yield_keys_count (responses : Nat → Stamp × List (String × JBody))
    (ks : List String) (n : Nat) :
    (yield_keys responses ks n).2 = n + (yield_keys responses ks n).1.length := by
  induction ks generalizing n with
  | nil => rfl
  | cons k ks ih => simp [yield_keys, ih (n + 1)]; omega

theorem generate_count (responses : Nat → Stamp × List (String × JBody))
    (endpoints : List (String × List String)) (n : Nat) :
    (generate responses endpoints n).2 = n + (generate responses endpoints n).1.length := by
  induction endpoints generalizing n with
  | nil => rfl
  | cons ep rest ih =>
    obtain ⟨e, keys⟩ := ep
    by_cases hk : keys.isEmpty
    · simp [generate, hk, yield_keys_count, ih, List.isEmpty_iff.mp hk, yield_keys]
      omega
    · simp [generate, hk, ih]
      rw [yield_keys_count]
      omega

/- ## Claim theorems -/

theorem str_upper_table_name (pfx k : String)
    (h1 : str_upper (str_upper k) = str_upper k) :
    str_upper (pipeline_table_name pfx k) = str_upper pfx ++ "_" ++ str_upper k := by
  unfold pipeline_table_name
  rw [str_upper_append, str_upper_append, h1]
  have h2 : str_upper "_" = "_" := by decide
  rw [h2]

/-- C1, counterexample: the pipeline derives the table name for the
generator-yielded logical name "events" and the prefix "fpl" as
"fpl_EVENTS", not the both-components-upper-cased "FPL_EVENTS" the claim
states. -/
theorem C1_counterexample :
    pipeline_table_name "fpl" "events" = "fpl_EVENTS"
      ∧ pipeline_table_name "fpl" "events" ≠ "FPL_EVENTS"
      ∧ "FPL_EVENTS" = str_upper "fpl" ++ "_" ++ str_upper "events"
      ∧ "events" ∈ generator_names fpl_endpoints := by
  refine ⟨by decide, by decide, by decide, by decide⟩

/-- C1, amended: for every prefix and every logical name yielded by the
generator, the rebuild/reload table name is the verbatim prefix joined by
an underscore to the upper-cased logical name; only the DDL generation
path (`generate_oracle_ddl`) upper-cases the whole name, so the table
created in the database carries uppercase(prefix) + "_" +
uppercase(logical name). -/
theorem C1_theorem (pfx k : String) (hk : k ∈ generator_names fpl_endpoints) :
    pipeline_table_name pfx k = pfx ++ "_" ++ str_upper k
      ∧ str_upper (pipeline_table_name pfx k) = str_upper pfx ++ "_" ++ str_upper k := by
  refine ⟨rfl, ?_⟩
  fin_cases hk <;> exact str_upper_table_name _ _ (by decide)

/-- C1, witness for the amended claim at prefix "fpl" and logical name
"events". -/
theorem C1_witness :
    pipeline_table_name "fpl" "events" = "fpl" ++ "_" ++ str_upper "events"
      ∧ str_upper (pipeline_table_name "fpl" "events")
        = str_upper "fpl" ++ "_" ++ str_upper "events" :=
  C1_theorem "fpl" "events" (by decide)

/-- C7: a decimal column with known precision and scale maps to
NUMBER(p,s); when precision/scale are unavailable the mapping falls back
to an unconstrained NUMBER instead of failing.  In particular decimal
(10,2) maps to NUMBER(10,2). -/
theorem C7_theorem :
    (∀ p s : Int, field_to_oracle_type (.decimal (some (p, s))) none
        = "NUMBER(" ++ toString p ++ "," ++ toString s ++ ")")
    ∧ (∀ column, field_to_oracle_type (.decimal none) column = "NUMBER")
    ∧ field_to_oracle_type (.decimal (some (10, 2))) none = "NUMBER(10,2)" :=
  ⟨fun p s => rfl, fun column => rfl, by decide⟩

/-- A sampled string of n repeated characters, used to state the text
length-inference scenarios. -/
def long_str (n : Nat) : String := ⟨List.replicate n 'a'⟩

theorem max_sample_len_long (n : Nat) : max_sample_len [some (long_str n)] = n := by
  simp [max_sample_len, long_str, String.length]

theorem field_str_eval (vals : List (Option String)) :
    field_to_oracle_type .strType (some vals)
      = if max 255 (max_sample_len vals * 3) ≤ 4000 then
          "VARCHAR2(" ++ toString (min (max 255 (max_sample_len vals * 3)) 4000) ++ ")"
        else "CLOB" := rfl

theorem field_str_long (n : Nat) :
    field_to_oracle_type .strType (some [some (long_str n)])
      = if max 255 (n * 3) ≤ 4000 then
          "VARCHAR2(" ++ toString (min (max 255 (n * 3)) 4000) ++ ")"
        else "CLOB" := by
  rw [field_str_eval, max_sample_len_long]

/-- C2, counterexample: a string column whose longest sampled value has
2000 characters maps to CLOB (the bound max(255, 6000) exceeds 4000), not
to a "capped" VARCHAR2(4000) as the claim's scenario states. -/
theorem C2_counterexample :
    field_to_oracle_type .strType (some [some (long_str 2000)]) = "CLOB"
      ∧ field_to_oracle_type .strType (some [some (long_str 2000)])
          ≠ "VARCHAR2(4000)" := by
  have h := field_str_long 2000
  rw [if_neg (by decide : ¬ max 255 (2000 * 3) ≤ 4000)] at h
  exact ⟨h, by rw [h]; decide⟩

/-- C2, amended: with sampled values, a string column maps to a VARCHAR2
whose bound is max(255, 3 × longest sampled length) whenever that bound is
at most 4000, and to CLOB as soon as the bound exceeds 4000 — the cap of
the bound to 4000 never takes effect.  Longest 50 ⇒ VARCHAR2(255);
longest 2000 ⇒ CLOB; longest 10000 ⇒ CLOB. -/
theorem C2_theorem :
    (∀ vals : List (Option String),
      field_to_oracle_type .strType (some vals)
        = if max 255 (3 * max_sample_len vals) ≤ 4000 then
            "VARCHAR2(" ++ toString (max 255 (3 * max_sample_len vals)) ++ ")"
          else "CLOB")
    ∧ field_to_oracle_type .strType (some [some (long_str 50)]) = "VARCHAR2(255)"
    ∧ field_to_oracle_type .strType (some [some (long_str 2000)]) = "CLOB"
    ∧ field_to_oracle_type .strType (some [some (long_str 10000)]) = "CLOB" := by
  refine ⟨?_, ?_, ?_, ?_⟩
  · intro vals
    rw [field_str_eval, Nat.mul_comm (max_sample_len vals) 3]
    by_cases h : max 255 (3 * max_sample_len vals) ≤ 4000
    · rw [if_pos h, if_pos h, Nat.min_eq_left h]
    · rw [if_neg h, if_neg h]
  · rw [field_str_long, if_pos (by decide : max 255 (50 * 3) ≤ 4000)]
    decide
  · rw [field_str_long, if_neg (by decide : ¬ max 255 (2000 * 3) ≤ 4000)]
  · rw [field_str_long, if_neg (by decide : ¬ max 255 (10000 * 3) ≤ 4000)]

theorem clean_df_bool_mem (df : PFrame) (c : PCol) (hc : c ∈ df)
    (hb : c.dtype = .boolean) :
    (⟨c.name, .int8, c.values.map bool_to_int8⟩ : PCol) ∈ clean_df df := by
  have hdf1 : c ∈ df.filter (fun x => ¬(x.dtype = .listType ∨ x.dtype = .structType)) :=
    List.mem_filter.mpr ⟨hc, by simp [hb]⟩
  have hbc : c ∈ (df.filter (fun x => ¬(x.dtype = .listType ∨ x.dtype = .structType))).filter
      (fun x => x.dtype = .boolean) :=
    List.mem_filter.mpr ⟨hdf1, by simp [hb]⟩
  have hne : (df.filter (fun x => ¬(x.dtype = .listType ∨ x.dtype = .structType))).filter
      (fun x => x.dtype = .boolean) ≠ [] := List.ne_nil_of_mem hbc
  have hE : ¬ ((df.filter (fun x => ¬(x.dtype = .listType ∨ x.dtype = .structType))).filter
      (fun x => x.dtype = .boolean)).isEmpty = true := by
    rw [List.isEmpty_iff]; exact hne
  show _ ∈ clean_df df
  unfold clean_df
  rw [if_neg hE]
  refine List.mem_map.mpr ⟨c, hdf1, ?_⟩
  rw [if_pos hb]

/-- C4: the normalization step `clean_df` turns every boolean column into
an Int8 column by the value map true→1, false→0, null→null, and is
idempotent: cleaning twice equals cleaning once. -/
theorem C4_theorem :
    (∀ df : PFrame, clean_df (clean_df df) = clean_df df)
    ∧ (∀ (df : PFrame) (c : PCol), c ∈ df → c.dtype = .boolean →
        (⟨c.name, .int8, c.values.map bool_to_int8⟩ : PCol) ∈ clean_df df)
    ∧ bool_to_int8 (.vbool true) = .vint 1
    ∧ bool_to_int8 (.vbool false) = .vint 0
    ∧ bool_to_int8 .vnull = .vnull :=
  ⟨clean_df_idempotent, clean_df_bool_mem, rfl, rfl, rfl⟩

/-- C4, witness: a concrete one-column boolean frame with a true, a false
and a null cell is normalized to Int8 values 1, 0, null. -/
theorem C4_witness :
    (⟨"active", .int8, [PVal.vbool true, .vbool false, .vnull].map bool_to_int8⟩ : PCol)
      ∈ clean_df [⟨"active", .boolean, [PVal.vbool true, .vbool false, .vnull]⟩] :=
  C4_theorem.2.1 [⟨"active", .boolean, [PVal.vbool true, .vbool false, .vnull]⟩]
    ⟨"active", .boolean, [PVal.vbool true, .vbool false, .vnull]⟩ (by simp) rfl

theorem stamp_skeleton (st : Stamp) :
    stamp_df st (clean_df skeleton_df)
      = [⟨"request_id", .strType, []⟩, ⟨"request_time", .strType, []⟩,
         ⟨"response_code", .int64, []⟩, ⟨"response_elapsed_ms", .float64, []⟩] := rfl

/-- C5: for every fetch result with a non-200 response code, with or
without a key, `parse` returns a frame with zero rows whose columns are
exactly the four stamp columns, in order. -/
theorem C5_theorem (st : Stamp) (key : Option String) (body : List (String × JBody))
    (h : ¬ st.response_code = 200) :
    (parse st key body).map PCol.name
        = ["request_id", "request_time", "response_code", "response_elapsed_ms"]
      ∧ df_height (parse st key body) = 0
      ∧ ∀ c ∈ parse st key body, c.values = ([] : List PVal) := by
  have hp : parse st key body
      = [⟨"request_id", .strType, []⟩, ⟨"request_time", .strType, []⟩,
         ⟨"response_code", .int64, []⟩, ⟨"response_elapsed_ms", .float64, []⟩] := by
    cases key with
    | none => exact stamp_skeleton st
    | some k =>
        show stamp_df st (clean_df (if st.response_code = 200 then
          pl_DataFrame_records (py_or_empty (assoc_get k body)) else skeleton_df)) = _
        rw [if_neg h]
        exact stamp_skeleton st
  rw [hp]
  refine ⟨rfl, rfl, ?_⟩
  intro c hc
  simp only [List.mem_cons, List.not_mem_nil, or_false] at hc
  rcases hc with rfl | rfl | rfl | rfl <;> rfl

/-- C5, witness: a concrete 500 response with a key still yields the
four-column, zero-row skeleton. -/
theorem C5_witness :
    (parse ⟨"rid", "rtime", 500, 7⟩ (some "events")
        [("events", .records [[("id", .vint 1)]])]).map PCol.name
        = ["request_id", "request_time", "response_code", "response_elapsed_ms"]
      ∧ df_height (parse ⟨"rid", "rtime", 500, 7⟩ (some "events")
          [("events", .records [[("id", .vint 1)]])]) = 0
      ∧ ∀ c ∈ parse ⟨"rid", "rtime", 500, 7⟩ (some "events")
          [("events", .records [[("id", .vint 1)]])], c.values = ([] : List PVal) :=
  C5_theorem ⟨"rid", "rtime", 500, 7⟩ (some "events")
    [("events", .records [[("id", .vint 1)]])] (by decide)

/-- C3: the code-level behaviour at the claim's failing input — a 200
response whose body lacks the requested key.  `parse` builds
`pl.DataFrame([])` (zero columns) from `stamp.get(key) or []`, and the
four stamped literal columns then land on a frame with no height, so the
result is a ONE-row frame carrying the four stamp columns, not the
zero-row frame the claim (and the code's own comment) promises. -/
theorem C3_theorem :
    parse ⟨"id0", "t0", 200, 0⟩ (some "events") []
        = [⟨"request_id", .strType, [.vstr "id0"]⟩,
           ⟨"request_time", .strType, [.vstr "t0"]⟩,
           ⟨"response_code", .int64, [.vint 200]⟩,
           ⟨"response_elapsed_ms", .float64, [.vfloat 0]⟩]
      ∧ df_height (parse ⟨"id0", "t0", 200, 0⟩ (some "events") []) = 1
      ∧ ¬ df_height (parse ⟨"id0", "t0", 200, 0⟩ (some "events") []) = 0 := by
  refine ⟨rfl, rfl, by decide⟩

/-- C10: in every frame `parse` returns — whatever the stamp, key and
body, including payloads that themselves carry columns named like the
metric fields — each of the four stamp columns holds the stamp's literal
value repeated on every row (any same-named payload column is overwritten
by the stamped literal). -/
theorem C10_theorem (st : Stamp) (key : Option String) (body : List (String × JBody)) :
    col_values (parse st key body) "request_id"
        = some (List.replicate (df_height (parse st key body)) (.vstr st.request_id))
      ∧ col_values (parse st key body) "request_time"
        = some (List.replicate (df_height (parse st key body)) (.vstr st.request_time))
      ∧ col_values (parse st key body) "response_code"
        = some (List.replicate (df_height (parse st key body)) (.vint st.response_code))
      ∧ col_values (parse st key body) "response_elapsed_ms"
        = some (List.replicate (df_height (parse st key body)) (.vfloat st.response_elapsed_ms)) :=
  ⟨stamp_df_request_id st _, stamp_df_request_time st _,
   stamp_df_response_code st _, stamp_df_response_elapsed st _⟩

/-- C6: the endpoint configuration with "bootstrap-static" ↦ ["events"]
and "fixtures" ↦ [] drives exactly two HTTP fetches and yields the items
named "events" then "fixtures", each built from its own fetch; in
general one HTTP call is made per yielded item, an endpoint with an
empty sub-key list yields one whole-body item, and an endpoint with
sub-keys yields one item per sub-key in configured order. -/
theorem C6_theorem (responses : Nat → Stamp × List (String × JBody)) :
    ((generate responses [("bootstrap-static", ["events"]), ("fixtures", [])] 0).2 = 2
      ∧ (generate responses [("bootstrap-static", ["events"]), ("fixtures", [])] 0).1
          = [("events", parse (responses 0).1 (some "events") (responses 0).2),
             ("fixtures", parse (responses 1).1 none (responses 1).2)])
    ∧ (∀ (endpoints : List (String × List String)) (n : Nat),
        (generate responses endpoints n).2 = n + (generate responses endpoints n).1.length)
    ∧ (∀ (e : String) (keys : List String) (n : Nat),
        (generate responses [(e, keys)] n).1.map Prod.fst
          = if keys.isEmpty then [e] else keys) := by
  refine ⟨⟨rfl, rfl⟩, generate_count responses, ?_⟩
  intro e keys n
  by_cases hk : keys.isEmpty
  · simp [generate, hk, List.isEmpty_iff.mp hk, yield_keys]
  · simp [generate, hk, yield_keys_fst]

/-- C8: for the create, drop, truncate and count-rows operations, a
database error raised by the driver is logged and then re-raised to the
caller unchanged — the operation neither swallows the error nor returns a
default result. -/
theorem C8_theorem (tn : String) (e : String) :
    ((truncate_table tn (.error e)).result = .error e
      ∧ ("Truncation failed: " ++ e) ∈ (truncate_table tn (.error e)).log)
    ∧ ((drop_table tn (.error e)).result = .error e
      ∧ ("Dropping table failed: " ++ e) ∈ (drop_table tn (.error e)).log)
    ∧ ((count_rows tn (.error e)).result = .error e
      ∧ ("Row count retrieval failed: " ++ e) ∈ (count_rows tn (.error e)).log)
    ∧ (∀ tbl : List OraField, (create_table tn tbl (.error e)).result = .error e
      ∧ ("Creating table failed: " ++ e) ∈ (create_table tn tbl (.error e)).log) := by
  refine ⟨⟨rfl, ?_⟩, ⟨rfl, ?_⟩, ⟨rfl, ?_⟩, fun tbl => ⟨rfl, ?_⟩⟩ <;>
    simp [truncate_table, drop_table, count_rows, create_table]

/-- C9: `close` never raises to the caller: it returns normally for every
driver outcome, and a database error while closing the pool is only
logged — in contrast to the logged-then-re-raised create/drop/truncate/
count operations. -/
theorem C9_theorem :
    (∀ driver : Except String Unit, (close_loader driver).result = .ok ())
    ∧ ∀ e : String,
        ("Failed to close connection pool: " ++ e) ∈ (close_loader (.error e)).log := by
  constructor
  · intro driver
    cases driver <;> rfl
  · intro e
    simp [close_loader]
